import Mathlib

/-!
Shallow embedding of the DevPilotAI backend request handlers.

Source files embedded:
* `backend/src/routes/generate.ts` — the `generateCode` POST handler
  (validation, Gemini upstream call, persistence, catch-block error
  translation).
* `backend/src/routes/history.ts` — the `getHistory` GET handler
  (permissive `parseInt(x) || default` parameter parsing, range
  validation, paginated query, pagination metadata).

JavaScript semantics that matter here and are modelled explicitly:
* truthiness of request-body values (`""`, `0`, `false`, `null`,
  `undefined` are falsy);
* `parseInt` (whitespace skip, optional sign, `0x`/`0X` hex radix
  detection, longest digit run, `NaN` on no digits);
* `parseInt(x) || d` substitutes `d` both on `NaN` and on `0`;
* `String.prototype.trim`;
* `String.prototype.includes` used by the catch-block message sniffing;
* `new Error(msg)` carries only a message — no `status` field — so the
  `if (error.status)` branch of the catch block is modelled by an
  explicit `Option Nat` that is `none` for errors thrown by the
  handler's own non-ok branch.

The Prisma store is modelled as in-memory lists plus a generated-id and
clock counter; `findMany` with `orderBy createdAt desc / skip / take`
is modelled as insertion sort by descending timestamp followed by
`drop`/`take`.
-/

namespace DevPilot

/-- ASCII whitespace test matching what both `String.prototype.trim`
and `parseInt` skip on the inputs relevant here. -/
def jsWhitespace (c : Char) : Bool :=
  c == ' ' || c == '\t' || c == '\n' || c == '\r' || c == '\x0b' || c == '\x0c'

/-- JavaScript `String.prototype.trim`: strip leading and trailing
whitespace. -/
def jsTrim (s : String) : String :=
  ⟨((s.data.dropWhile jsWhitespace).reverse.dropWhile jsWhitespace).reverse⟩

/-- JavaScript `String.prototype.includes(pat)` for the fixed non-empty
patterns used in the catch block. -/
def jsIncludes (s pat : String) : Bool :=
  decide (pat.data <:+: s.data)

/-- Numeric value of a run of decimal digit characters. -/
def digitsVal (l : List Char) : Nat :=
  l.foldl (fun a c => a * 10 + (c.toNat - 48)) 0

/-- Hexadecimal digit test used by `parseInt`'s `0x` radix. -/
def isHexDigitChar (c : Char) : Bool :=
  c.isDigit || ('a' ≤ c && c ≤ 'f') || ('A' ≤ c && c ≤ 'F')

/-- Numeric value of a run of hexadecimal digit characters. -/
def hexDigitsVal (l : List Char) : Nat :=
  l.foldl (fun a c =>
    a * 16 +
      (if c.isDigit then c.toNat - 48
       else if 'a' ≤ c then c.toNat - 87
       else c.toNat - 55)) 0

/-- Parse the longest leading digit run of `cs` in radix 10; `none`
models `NaN` (no digits). -/
def parseDecimal (cs : List Char) : Option Nat :=
  match cs.takeWhile Char.isDigit with
  | [] => none
  | ds => some (digitsVal ds)

/-- Parse the longest leading hex-digit run of `cs`; `none` models
`NaN`. -/
def parseHex (cs : List Char) : Option Nat :=
  match cs.takeWhile isHexDigitChar with
  | [] => none
  | ds => some (hexDigitsVal ds)

/-- Magnitude part of `parseInt` after sign handling: detect a `0x` /
`0X` radix marker, otherwise parse decimal. -/
def parseIntMag (cs : List Char) : Option Nat :=
  match cs with
  | c1 :: c2 :: t =>
      if c1 = '0' ∧ (c2 = 'x' ∨ c2 = 'X') then parseHex t
      else parseDecimal (c1 :: c2 :: t)
  | _ => parseDecimal cs

/-- JavaScript `parseInt(s)` with no radix argument: skip whitespace,
optional sign, `0x` hex detection, longest digit run; `none` is `NaN`. -/
def jsParseInt (s : String) : Option Int :=
  match s.data.dropWhile jsWhitespace with
  | [] => none
  | c :: t =>
      if c = '-' then (parseIntMag t).map (fun n => -(n : Int))
      else if c = '+' then (parseIntMag t).map (fun n => (n : Int))
      else (parseIntMag (c :: t)).map (fun n => (n : Int))

/-- JavaScript `v || d` applied to a `parseInt` result: both `NaN` and
`0` (falsy) are replaced by the default. -/
def jsOrDefault (v : Option Int) (d : Int) : Int :=
  match v with
  | none => d
  | some n => if n = 0 then d else n

/-- `parseInt(req.query.p as string) || d` for an optional query
parameter: an absent parameter stringifies to `"undefined"`, which
parses to `NaN`, hence the default. -/
def resolveParam (v : Option String) (d : Int) : Int :=
  match v with
  | none => d
  | some s => jsOrDefault (jsParseInt s) d

/-- A JSON value as it can appear in a request-body field (objects and
arrays are not needed for the fields these handlers read). -/
inductive JsVal where
  | str (s : String)
  | num (n : Int)
  | boolean (b : Bool)
  | null
  | undef
deriving DecidableEq, Repr

/-- JavaScript truthiness. -/
def JsVal.truthy : JsVal → Bool
  | .str s => s != ""
  | .num n => n != 0
  | .boolean b => b
  | .null => false
  | .undef => false

/-- `typeof v === 'string'`. -/
def JsVal.isStr : JsVal → Bool
  | .str _ => true
  | _ => false

/-- The string payload of a value (only consulted after `isStr`). -/
def JsVal.asStr : JsVal → String
  | .str s => s
  | _ => ""

/-- Persisted `User` row (id, optional name, optional email). -/
structure User where
  id : String
  name : Option String
  email : Option String
deriving DecidableEq, Repr

/-- Persisted `Generation` row. `id` and `createdAt` are
system-generated (modelled by counters in the store). -/
structure Generation where
  id : Nat
  prompt : String
  language : String
  code : String
  userId : Option String
  createdAt : Nat
deriving DecidableEq, Repr

/-- The relational store behind the Prisma client, plus the id and
clock generators that fill in system-generated fields. -/
structure Store where
  users : List User
  generations : List Generation
  nextId : Nat
  now : Nat
deriving DecidableEq, Repr

/-- A store with no rows. -/
def emptyStore : Store := ⟨[], [], 0, 0⟩

/-- `prisma.user.findUnique({ where: { id } })`. -/
def findUser (s : Store) (uid : String) : Option User :=
  s.users.find? (fun u => u.id == uid)

/-! ## History endpoint (`getHistory` in `backend/src/routes/history.ts`) -/

/-- Descending creation-time order used by
`orderBy: { createdAt: 'desc' }`. -/
def genDesc (a b : Generation) : Prop :=
  b.createdAt ≤ a.createdAt

instance : DecidableRel genDesc := fun a b => Nat.decLe b.createdAt a.createdAt

instance : IsTotal Generation genDesc :=
  ⟨fun a b => (Nat.le_total b.createdAt a.createdAt).imp id id⟩

instance : IsTrans Generation genDesc :=
  ⟨fun _ _ _ h h' => Nat.le_trans h' h⟩

/-- The rows matching the optional `language` filter: `if (language)
where.language = language` (an empty string is falsy, hence no
filter). -/
def matchingGens (s : Store) (language : Option String) : List Generation :=
  match language with
  | some l => if l = "" then s.generations else s.generations.filter (fun g => g.language == l)
  | none => s.generations

/-- `findMany({where, orderBy: {createdAt: 'desc'}})` before the
window is applied: the matching rows sorted newest-first. -/
def sortedDesc (l : List Generation) : List Generation :=
  l.insertionSort genDesc

/-- The per-row `include: { user: { select: { id, name, email } } }`
join. -/
structure UserInfo where
  id : String
  name : Option String
  email : Option String
deriving DecidableEq, Repr

/-- One element of the history response: a generation together with
its joined user (if any). -/
structure HistoryItem where
  gen : Generation
  user : Option UserInfo
deriving DecidableEq, Repr

/-- Attach the selected user fields to a generation row. -/
def joinUser (s : Store) (g : Generation) : HistoryItem :=
  ⟨g, g.userId.bind (fun uid => (findUser s uid).map (fun u => ⟨u.id, u.name, u.email⟩))⟩

/-- The `pagination` object of the history response. -/
structure Pagination where
  page : Int
  limit : Int
  total : Nat
  totalPages : Nat
  hasNext : Bool
  hasPrev : Bool
deriving DecidableEq, Repr

/-- Body of a successful history response. -/
structure HistoryResult where
  generations : List HistoryItem
  pagination : Pagination
deriving DecidableEq, Repr

/-- Either a 400 from range validation or the 200 result. -/
inductive HistoryResponse where
  | invalidInput (message : String)
  | ok (result : HistoryResult)
deriving DecidableEq, Repr

/-- Whether a history response is the 400 InvalidInput case. -/
def HistoryResponse.isInvalid : HistoryResponse → Bool
  | .invalidInput _ => true
  | .ok _ => false

/-- `Math.ceil(total / limit)` for a natural `total` and positive
natural `limit`. -/
def ceilDiv (total l : Nat) : Nat :=
  (total + l - 1) / l

/-- Core of `getHistory` after parameter resolution: range validation,
windowed query and pagination metadata. -/
def historyGo (page limit : Int) (language : Option String) (s : Store) : HistoryResponse :=
  if page < 1 then
    .invalidInput "Page must be greater than 0"
  else if limit < 1 ∨ limit > 100 then
    .invalidInput "Limit must be between 1 and 100"
  else
    let skip := ((page - 1) * limit).toNat
    let matching := matchingGens s language
    let total := matching.length
    let rows := (((sortedDesc matching).drop skip).take limit.toNat).map (joinUser s)
    let totalPages := ceilDiv total limit.toNat
    .ok ⟨rows, ⟨page, limit, total, totalPages,
      decide (page < (totalPages : Int)), decide (1 < page)⟩⟩

/-- The query parameters of a history request as the handler reads
them. -/
structure HistoryQuery where
  page : Option String
  limit : Option String
  language : Option String
deriving DecidableEq, Repr

/-- `getHistory`: resolve `page` and `limit` with the permissive
`parseInt(x) || default` policy, then validate and query. -/
def getHistory (q : HistoryQuery) (s : Store) : HistoryResponse :=
  historyGo (resolveParam q.page 1) (resolveParam q.limit 10) q.language s

/-- The handler together with its (absent) effect on the store: the
request issues only `count` and `findMany` reads, so the store passes
through unchanged. -/
def getHistoryRun (q : HistoryQuery) (s : Store) : HistoryResponse × Store :=
  (getHistory q s, s)

/-! ## Generate endpoint (`generateCode` in `backend/src/routes/generate.ts`) -/

/-- The request body fields the handler destructures. -/
structure GenRequest where
  prompt : JsVal
  language : JsVal
  userId : JsVal
deriving DecidableEq, Repr

/-- The fixed language whitelist `validLanguages`. -/
def validLanguages : List String :=
  ["Python", "JavaScript", "C++", "TypeScript"]

/-- Guard of `if (!prompt || typeof prompt !== 'string' ||
prompt.trim().length === 0)`. -/
def promptBad (v : JsVal) : Bool :=
  !v.truthy || !v.isStr || jsTrim v.asStr == ""

/-- Guard of `if (!language || typeof language !== 'string')`. -/
def langMissing (v : JsVal) : Bool :=
  !v.truthy || !v.isStr

/-- Guard of `if (!validLanguages.includes(language))`. -/
def langNotValid (v : JsVal) : Bool :=
  !validLanguages.contains v.asStr

/-- Guard of `if (userId && typeof userId !== 'string')`: only truthy
non-strings are rejected. -/
def userIdBadType (v : JsVal) : Bool :=
  v.truthy && !v.isStr

/-- Guard of `if (userId) { ... if (!user) 404 }`: the lookup happens
only when `userId` is truthy. -/
def userNotFound (v : JsVal) (s : Store) : Bool :=
  v.truthy && (findUser s v.asStr).isNone

/-- Outcome of the single `fetch` to the Gemini API, as the handler
observes it. `httpFailure` is the `!response.ok` branch:
`bodyErrorMessage` is `errorData.error?.message` after the
parse-failure fallback to `{error: {message: response.statusText}}`
(`none` when the parsed body has no such field). `transportError` is a
rejected `fetch` (the thrown error has a message but no `status`
field). `success` carries `data.candidates?.[0]?.content?.parts?.[0]?.text`
(`none` when that chain is absent). -/
inductive UpstreamResult where
  | httpFailure (status : Nat) (bodyErrorMessage : Option String)
  | transportError (message : String)
  | success (text : Option String)
deriving DecidableEq, Repr

/-- Message of the error thrown by the `!response.ok` branch:
`errorData.error?.message || «API request failed with status N»`
(an absent or empty message falls back). -/
def thrownMessage (status : Nat) (bodyErrorMessage : Option String) : String :=
  match bodyErrorMessage with
  | some m => if m == "" then "API request failed with status " ++ toString status else m
  | none => "API request failed with status " ++ toString status

/-- The fixed help message of the 401 invalid-key response. -/
def invalidKeyHelp : String :=
  "Please check your GEMINI_API_KEY in the .env file. Get your API key at https://makersuite.google.com/app/apikey"

/-- The fixed help message of the 429 quota response. -/
def quotaHelp : String :=
  "You have exceeded your Gemini API quota. Please check your usage at https://makersuite.google.com/app/apikey"

/-- Response of the generate endpoint, one constructor per
`res.status(...).json(...)` site in the handler. -/
inductive GenResponse where
  | invalidInput (message : String)
  | notFound (message : String)
  | invalidKey
  | quotaExceeded
  | upstreamWithStatus (status : Nat) (message : String)
  | genericFailure (message : String)
  | generationEmpty
  | ok (g : Generation)
deriving DecidableEq, Repr

/-- HTTP status, `error` body field and optional `message` body field
of each response. -/
def GenResponse.toHttp : GenResponse → Nat × String × Option String
  | .invalidInput m => (400, m, none)
  | .notFound m => (404, m, none)
  | .invalidKey => (401, "Invalid Gemini API key", some invalidKeyHelp)
  | .quotaExceeded => (429, "Gemini API quota exceeded", some quotaHelp)
  | .upstreamWithStatus st m => (st, "Gemini API error", some m)
  | .genericFailure m => (500, "Failed to generate code", some m)
  | .generationEmpty => (500, "Failed to generate code", none)
  | .ok _ => (200, "", none)

/-- HTTP status code of a generate response. -/
def GenResponse.httpStatus (r : GenResponse) : Nat := r.toHttp.1

/-- The catch block's translation of a thrown error, given its message
and its (possibly absent) `status` field: sniff the message for the
invalid-key and quota patterns, then mirror `error.status` when
present, else 500. -/
def classifyCatch (msg : String) (errStatus : Option Nat) : GenResponse :=
  if jsIncludes msg "API_KEY_INVALID" || jsIncludes msg "API key" then
    .invalidKey
  else if jsIncludes msg "quota" || jsIncludes msg "429" then
    .quotaExceeded
  else
    match errStatus with
    | some st => .upstreamWithStatus st msg
    | none => .genericFailure msg

/-- Result of one invocation of the generate handler: the response,
the store afterwards, and whether the upstream `fetch` was reached. -/
structure GenOutcome where
  resp : GenResponse
  store : Store
  calledUpstream : Bool
deriving DecidableEq, Repr

/-- The handler from the `fetch` onwards: translate upstream failures
through the catch block (the thrown `Error` carries no `status`
field), reject an empty generation, otherwise persist and return the
new row. -/
def handleUpstream (promptTrimmed language : String) (userId : JsVal)
    (up : UpstreamResult) (s : Store) : GenOutcome :=
  match up with
  | .httpFailure status bodyMsg =>
      ⟨classifyCatch (thrownMessage status bodyMsg) none, s, true⟩
  | .transportError m =>
      ⟨classifyCatch m none, s, true⟩
  | .success text =>
      let generatedCode := jsTrim (text.getD "")
      if generatedCode == "" then
        ⟨.generationEmpty, s, true⟩
      else
        let g : Generation :=
          ⟨s.nextId, promptTrimmed, language, generatedCode,
            if userId.truthy then some userId.asStr else none, s.now⟩
        ⟨.ok g, { s with generations := s.generations ++ [g], nextId := s.nextId + 1 }, true⟩

/-- `generateCode`: validation in source order, then the upstream call
and persistence. -/
def generateCode (req : GenRequest) (up : UpstreamResult) (s : Store) : GenOutcome :=
  if promptBad req.prompt then
    ⟨.invalidInput "Prompt is required and must be a non-empty string", s, false⟩
  else if langMissing req.language then
    ⟨.invalidInput "Language is required and must be a string", s, false⟩
  else if langNotValid req.language then
    ⟨.invalidInput "Language must be one of: Python, JavaScript, C++, TypeScript", s, false⟩
  else if userIdBadType req.userId then
    ⟨.invalidInput "userId must be a string if provided", s, false⟩
  else if userNotFound req.userId s then
    ⟨.notFound "User not found", s, false⟩
  else
    handleUpstream (jsTrim req.prompt.asStr) req.language.asStr req.userId up s

/-- All five validation guards pass. -/
def passesValidation (req : GenRequest) (s : Store) : Bool :=
  !promptBad req.prompt && !langMissing req.language && !langNotValid req.language &&
    !userIdBadType req.userId && !userNotFound req.userId s

/-- A request-body `userId` field built from an optional user id
string. -/
def optUserVal : Option String → JsVal
  | none => .undef
  | some u => .str u

/-- A store holding one user, used to instantiate witnesses. -/
def userStore : Store := ⟨[⟨"u1", none, none⟩], [], 5, 99⟩

/-- A store holding three generations with distinct timestamps, used
to instantiate the history witnesses. -/
def histStore : Store :=
  ⟨[], [⟨0, "p0", "Python", "c0", none, 10⟩, ⟨1, "p1", "JavaScript", "c1", none, 30⟩,
    ⟨2, "p2", "Python", "c2", none, 20⟩], 3, 50⟩

/-! ## Helper lemmas -/

theorem generateCode_valid (req : GenRequest) (s : Store) (up : UpstreamResult)
    (h : passesValidation req s = true) :
    generateCode req up s =
      handleUpstream (jsTrim req.prompt.asStr) req.language.asStr req.userId up s := by
  simp only [passesValidation, Bool.and_eq_true, Bool.not_eq_true'] at h
  obtain ⟨⟨⟨⟨h1, h2⟩, h3⟩, h4⟩, h5⟩ := h
  simp [generateCode, h1, h2, h3, h4, h5]

theorem promptBad_str (p : String) (hp : jsTrim p ≠ "") : promptBad (.str p) = false := by
  have hpe : p ≠ "" := fun h => hp (by rw [h]; rfl)
  simp [promptBad, JsVal.truthy, JsVal.isStr, JsVal.asStr, hp, hpe]

theorem langGuards_str (lang : String) (hl : validLanguages.contains lang = true) :
    langMissing (.str lang) = false ∧ langNotValid (.str lang) = false := by
  have hle : lang ≠ "" := by
    intro h
    subst h
    exact absurd hl (by decide)
  constructor
  · simp [langMissing, JsVal.truthy, JsVal.isStr, hle]
  · simp only [langNotValid, JsVal.asStr, hl, Bool.not_true]

theorem userNotFound_of_found (u : String) (s : Store)
    (hfound : (findUser s u).isSome = true) : userNotFound (.str u) s = false := by
  simp only [userNotFound, JsVal.truthy, JsVal.asStr]
  cases h : findUser s u with
  | none => rw [h] at hfound; cases hfound
  | some v => simp [h]

theorem classifyCatch_ne_notFound (m : String) (st : Option Nat) (msg : String) :
    classifyCatch m st ≠ .notFound msg := by
  unfold classifyCatch
  split
  · simp
  · split
    · simp
    · cases st <;> simp

theorem handleUpstream_resp_ne_notFound (pt lg : String) (uv : JsVal)
    (up : UpstreamResult) (s : Store) (msg : String) :
    (handleUpstream pt lg uv up s).resp ≠ .notFound msg := by
  cases up with
  | httpFailure status bodyMsg =>
      exact classifyCatch_ne_notFound _ none msg
  | transportError m =>
      exact classifyCatch_ne_notFound m none msg
  | success text =>
      simp only [handleUpstream]
      split <;> simp

/-! ## Claim theorems -/

/-- C8: the history endpoint is deterministic and read-only — running
it twice with the same query, the second time over the store left by
the first run, returns identical responses, and neither run modifies
the store. -/
theorem history_deterministic_readonly (q : HistoryQuery) (s : Store) :
    (getHistoryRun q s).2 = s ∧
      (getHistoryRun q (getHistoryRun q s).2).1 = (getHistoryRun q s).1 ∧
      (getHistoryRun q (getHistoryRun q s).2).2 = s :=
  ⟨rfl, rfl, rfl⟩

/-- C1 counterexample: `GET /api/history?page=0&limit=0` does not fail
with InvalidInput; `parseInt("0")` is `0`, which is falsy, so
`parseInt(x) || default` substitutes the defaults `page = 1` and
`limit = 10` and the request succeeds. -/
theorem history_page0_limit0_succeeds :
    getHistory ⟨some "0", some "0", none⟩ emptyStore =
        .ok ⟨[], ⟨1, 10, 0, 0, false, false⟩⟩ ∧
      (getHistory ⟨some "0", some "0", none⟩ emptyStore).isInvalid = false := by
  constructor <;> decide

/-- C1 amended: a `page` value parsing to a negative integer is
rejected with InvalidInput, a `limit` value parsing to a nonzero
integer outside [1, 100] is rejected with InvalidInput (so `limit=101`
is rejected), but a value parsing to `0` — such as the string `"0"` —
is falsy and is replaced by the default (`page → 1`, `limit → 10`)
rather than rejected. -/
theorem history_range_rejection
    (sp sl : String) (np nl : Int) (pp lim lang : Option String) (s : Store) :
    (jsParseInt sp = some np → np < 0 →
      getHistory ⟨some sp, lim, lang⟩ s = .invalidInput "Page must be greater than 0") ∧
    (1 ≤ resolveParam pp 1 → jsParseInt sl = some nl → (nl < 0 ∨ 100 < nl) →
      getHistory ⟨pp, some sl, lang⟩ s = .invalidInput "Limit must be between 1 and 100") ∧
    getHistory ⟨some "0", some "0", lang⟩ s = getHistory ⟨none, none, lang⟩ s := by
  refine ⟨?_, ?_, rfl⟩
  · intro hp hneg
    have hnz : np ≠ 0 := by omega
    have hres : resolveParam (some sp) 1 = np := by
      simp [resolveParam, hp, jsOrDefault, hnz]
    simp only [getHistory, hres]
    unfold historyGo
    rw [if_pos (by omega : np < 1)]
  · intro hpage hl hrange
    have hnz : nl ≠ 0 := by omega
    have hres : resolveParam (some sl) 10 = nl := by
      simp [resolveParam, hl, jsOrDefault, hnz]
    simp only [getHistory, hres]
    unfold historyGo
    rw [if_neg (by omega : ¬ resolveParam pp 1 < 1),
      if_pos (by omega : nl < 1 ∨ nl > 100)]

/-- Witness for the C1 amended theorem at `page="-1"` and
`limit="101"`. -/
theorem history_range_rejection_witness :
    getHistory ⟨some "-1", none, none⟩ emptyStore =
        .invalidInput "Page must be greater than 0" ∧
      getHistory ⟨none, some "101", none⟩ emptyStore =
        .invalidInput "Limit must be between 1 and 100" :=
  ⟨(history_range_rejection "-1" "x" (-1) 0 none none none emptyStore).1
      (by decide) (by decide),
    (history_range_rejection "x" "101" 0 101 none none none emptyStore).2.1
      (by decide) (by decide) (Or.inr (by decide))⟩

/-- C4 counterexample: `userId = 0` (a number, hence non-string) is
falsy, so `if (userId && typeof userId !== 'string')` does not reject
it; the request proceeds to the upstream call and, on success, writes
a Generation with a null user reference — contradicting the claim
that every non-string `userId` is rejected with InvalidInput before
any upstream call and without a store write. -/
theorem generate_numeric_zero_userid_accepted :
    generateCode ⟨.str "hi", .str "Python", .num 0⟩ (.success (some "print(1)")) emptyStore =
      ⟨.ok ⟨0, "hi", "Python", "print(1)", none, 0⟩,
        ⟨[], [⟨0, "hi", "Python", "print(1)", none, 0⟩], 1, 0⟩, true⟩ := by
  decide

/-- C4 amended: every request failing validation — empty or
whitespace-only (or non-string) prompt, language outside the fixed
set, a truthy non-string `userId`, or a truthy `userId` that does not
resolve to an existing User — is answered with the corresponding
error (InvalidInput, or NotFound for an unknown user) before the
upstream call, with the store unchanged; falsy non-string `userId`
values (`0`, `false`, `null`) are treated as absent instead of being
rejected. -/
theorem generate_validation_failfast
    (req : GenRequest) (up : UpstreamResult) (s : Store) :
    (promptBad req.prompt = true →
      generateCode req up s =
        ⟨.invalidInput "Prompt is required and must be a non-empty string", s, false⟩) ∧
    (promptBad req.prompt = false → langMissing req.language = true →
      generateCode req up s =
        ⟨.invalidInput "Language is required and must be a string", s, false⟩) ∧
    (promptBad req.prompt = false → langMissing req.language = false →
      langNotValid req.language = true →
      generateCode req up s =
        ⟨.invalidInput "Language must be one of: Python, JavaScript, C++, TypeScript", s, false⟩) ∧
    (promptBad req.prompt = false → langMissing req.language = false →
      langNotValid req.language = false → userIdBadType req.userId = true →
      generateCode req up s = ⟨.invalidInput "userId must be a string if provided", s, false⟩) ∧
    (promptBad req.prompt = false → langMissing req.language = false →
      langNotValid req.language = false → userIdBadType req.userId = false →
      userNotFound req.userId s = true →
      generateCode req up s = ⟨.notFound "User not found", s, false⟩) := by
  refine ⟨?_, ?_, ?_, ?_, ?_⟩ <;> intros <;> simp [generateCode, *]

/-- Witness for the C4 amended theorem: a whitespace-only prompt, a
wrong language, a truthy non-string `userId` and an unknown user each
fail fast on a concrete request. -/
theorem generate_validation_failfast_witness :
    generateCode ⟨.str "   ", .str "Python", .undef⟩ (.success (some "x")) emptyStore =
        ⟨.invalidInput "Prompt is required and must be a non-empty string", emptyStore, false⟩ ∧
      generateCode ⟨.str "hi", .str "Ruby", .undef⟩ (.success (some "x")) emptyStore =
        ⟨.invalidInput "Language must be one of: Python, JavaScript, C++, TypeScript",
          emptyStore, false⟩ ∧
      generateCode ⟨.str "hi", .str "Python", .num 7⟩ (.success (some "x")) emptyStore =
        ⟨.invalidInput "userId must be a string if provided", emptyStore, false⟩ ∧
      generateCode ⟨.str "hi", .str "Python", .str "ghost"⟩ (.success (some "x")) emptyStore =
        ⟨.notFound "User not found", emptyStore, false⟩ :=
  ⟨(generate_validation_failfast ⟨.str "   ", .str "Python", .undef⟩
        (.success (some "x")) emptyStore).1 (by decide),
    (generate_validation_failfast ⟨.str "hi", .str "Ruby", .undef⟩
        (.success (some "x")) emptyStore).2.2.1 (by decide) (by decide) (by decide),
    (generate_validation_failfast ⟨.str "hi", .str "Python", .num 7⟩
        (.success (some "x")) emptyStore).2.2.2.1 (by decide) (by decide) (by decide) (by decide),
    (generate_validation_failfast ⟨.str "hi", .str "Python", .str "ghost"⟩
        (.success (some "x")) emptyStore).2.2.2.2 (by decide) (by decide) (by decide)
      (by decide) (by decide)⟩

/-- C2 counterexample: an upstream HTTP failure with status 503 and
body message "upstream exploded" is answered with HTTP 500, not 503 —
the handler throws `new Error(message)`, which carries no `status`
field, so the `if (error.status)` mirror branch never fires for
HTTP-layer failures. -/
theorem generate_upstream_status_not_mirrored :
    generateCode ⟨.str "hi", .str "Python", .undef⟩
        (.httpFailure 503 (some "upstream exploded")) emptyStore =
        ⟨.genericFailure "upstream exploded", emptyStore, true⟩ ∧
      (GenResponse.genericFailure "upstream exploded").httpStatus = 500 := by
  constructor <;> decide

/-- C2 amended: a generate request whose upstream HTTP call fails
with a status not recognized (via the thrown message) as an
invalid-credentials or quota failure is answered with the generic
UpstreamError carrying HTTP 500 and the upstream message; the
upstream status code is never mirrored, because the error thrown by
the non-ok branch carries only a message and no `status` field. -/
theorem generate_http_failure_generic
    (req : GenRequest) (s : Store) (status : Nat) (bodyMsg : Option String)
    (hv : passesValidation req s = true)
    (hk : (jsIncludes (thrownMessage status bodyMsg) "API_KEY_INVALID" ||
        jsIncludes (thrownMessage status bodyMsg) "API key") = false)
    (hq : (jsIncludes (thrownMessage status bodyMsg) "quota" ||
        jsIncludes (thrownMessage status bodyMsg) "429") = false) :
    generateCode req (.httpFailure status bodyMsg) s =
        ⟨.genericFailure (thrownMessage status bodyMsg), s, true⟩ ∧
      (GenResponse.genericFailure (thrownMessage status bodyMsg)).httpStatus = 500 := by
  refine ⟨?_, rfl⟩
  rw [generateCode_valid req s _ hv]
  simp only [handleUpstream, classifyCatch, hk, hq]
  simp

/-- Witness for the C2 amended theorem: upstream status 503 with body
message "boom". -/
theorem generate_http_failure_generic_witness :
    generateCode ⟨.str "hi", .str "Python", .undef⟩ (.httpFailure 503 (some "boom"))
        emptyStore = ⟨.genericFailure (thrownMessage 503 (some "boom")), emptyStore, true⟩ ∧
      (GenResponse.genericFailure (thrownMessage 503 (some "boom"))).httpStatus = 500 :=
  generate_http_failure_generic ⟨.str "hi", .str "Python", .undef⟩ emptyStore 503
    (some "boom") (by decide) (by decide) (by decide)

/-- C3 counterexample: an upstream 429 whose error body carries the
message "slow down" is translated to the generic 500 failure, not the
quota-exceeded 429 variant — the catch block recognizes quota
failures only by the substrings "quota" or "429" in the thrown
message. -/
theorem generate_429_custom_body_not_quota :
    generateCode ⟨.str "hi", .str "Python", .undef⟩
        (.httpFailure 429 (some "slow down")) emptyStore =
        ⟨.genericFailure "slow down", emptyStore, true⟩ ∧
      (GenResponse.genericFailure "slow down").httpStatus = 500 := by
  constructor <;> decide

/-- C3 amended: an upstream 429 failure whose thrown message contains
"quota" or "429" and does not match the invalid-key patterns — which
holds in particular for every 429 whose body carries no error
message, since the fallback message "API request failed with status
429" contains "429" — is answered with the distinct quota-exceeded
variant at HTTP 429, with no store write. -/
theorem generate_quota_failure
    (req : GenRequest) (s : Store) (bodyMsg : Option String)
    (hv : passesValidation req s = true)
    (hk : (jsIncludes (thrownMessage 429 bodyMsg) "API_KEY_INVALID" ||
        jsIncludes (thrownMessage 429 bodyMsg) "API key") = false)
    (hq : (jsIncludes (thrownMessage 429 bodyMsg) "quota" ||
        jsIncludes (thrownMessage 429 bodyMsg) "429") = true) :
    generateCode req (.httpFailure 429 bodyMsg) s = ⟨.quotaExceeded, s, true⟩ ∧
      GenResponse.quotaExceeded.httpStatus = 429 ∧
      thrownMessage 429 none = "API request failed with status 429" ∧
      jsIncludes (thrownMessage 429 none) "429" = true := by
  refine ⟨?_, rfl, rfl, by decide⟩
  rw [generateCode_valid req s _ hv]
  simp only [handleUpstream, classifyCatch, hk, hq]
  simp

/-- Witness for the C3 amended theorem: a 429 with no body message
hits the quota branch via the fallback message. -/
theorem generate_quota_failure_witness :
    generateCode ⟨.str "hi", .str "Python", .undef⟩ (.httpFailure 429 none) emptyStore =
        ⟨.quotaExceeded, emptyStore, true⟩ ∧
      GenResponse.quotaExceeded.httpStatus = 429 ∧
      thrownMessage 429 none = "API request failed with status 429" ∧
      jsIncludes (thrownMessage 429 none) "429" = true :=
  generate_quota_failure ⟨.str "hi", .str "Python", .undef⟩ emptyStore none
    (by decide) (by decide) (by decide)

/-- C6: a validated generate request whose upstream call succeeds but
yields an absent or empty (after trimming) text payload is answered
with GenerationEmpty at HTTP 500, with no store write; at the HTTP
level this response is distinct from every catch-block UpstreamError
translation (its body has no `message` field and its `error` text
differs from the upstream variants that share status 500). -/
theorem generate_empty_text_fails
    (req : GenRequest) (s : Store) (text : Option String)
    (hv : passesValidation req s = true) (ht : jsTrim (text.getD "") = "") :
    generateCode req (.success text) s = ⟨.generationEmpty, s, true⟩ ∧
      GenResponse.generationEmpty.httpStatus = 500 ∧
      ∀ (m : String) (st : Option Nat),
        GenResponse.generationEmpty.toHttp ≠ (classifyCatch m st).toHttp := by
  refine ⟨?_, rfl, ?_⟩
  · rw [generateCode_valid req s _ hv]
    simp [handleUpstream, ht]
  · intro m st
    unfold classifyCatch
    split
    · simp [GenResponse.toHttp]
    · split
      · simp [GenResponse.toHttp]
      · cases st <;> simp [GenResponse.toHttp]

/-- Witness for C6: a successful upstream call returning only
whitespace. -/
theorem generate_empty_text_fails_witness :
    generateCode ⟨.str "hi", .str "Python", .undef⟩ (.success (some "   ")) emptyStore =
      ⟨.generationEmpty, emptyStore, true⟩ :=
  (generate_empty_text_fails ⟨.str "hi", .str "Python", .undef⟩ emptyStore (some "   ")
    (by decide) (by decide)).1

/-- C5: a valid generate request whose upstream call succeeds with
non-empty text persists exactly one new Generation — appended to the
store with the generated identifier and creation timestamp — whose
`code` is the trimmed upstream text, `prompt` the trimmed input
prompt, `language` the input language exactly, and user reference the
supplied user id (or null when absent), and returns that record. -/
theorem generate_success_persists
    (p lang t : String) (uid : Option String) (s : Store)
    (hp : jsTrim p ≠ "") (hl : validLanguages.contains lang = true)
    (hu : uid = none ∨ ∃ u, uid = some u ∧ u ≠ "" ∧ (findUser s u).isSome = true)
    (ht : jsTrim t ≠ "") :
    generateCode ⟨.str p, .str lang, optUserVal uid⟩ (.success (some t)) s =
      ⟨.ok ⟨s.nextId, jsTrim p, lang, jsTrim t, uid, s.now⟩,
        { s with
            generations := s.generations ++ [⟨s.nextId, jsTrim p, lang, jsTrim t, uid, s.now⟩],
            nextId := s.nextId + 1 },
        true⟩ := by
  have hpb := promptBad_str p hp
  obtain ⟨hlm, hlv⟩ := langGuards_str lang hl
  rcases hu with rfl | ⟨u, rfl, hne, hfound⟩
  · simp [generateCode, hpb, hlm, hlv, userIdBadType, userNotFound, optUserVal,
      JsVal.truthy, JsVal.isStr, JsVal.asStr, handleUpstream, ht]
  · have hnf := userNotFound_of_found u s hfound
    simp [generateCode, hpb, hlm, hlv, userIdBadType, optUserVal, hnf,
      JsVal.truthy, JsVal.isStr, JsVal.asStr, handleUpstream, ht, hne]

/-- Witness for C5: a concrete request with surrounding whitespace in
prompt and upstream text, owned by the existing user `u1`. -/
theorem generate_success_persists_witness :
    generateCode ⟨.str " hi ", .str "Python", optUserVal (some "u1")⟩
        (.success (some " print('hi') ")) userStore =
      ⟨.ok ⟨5, "hi", "Python", "print('hi')", some "u1", 99⟩,
        ⟨[⟨"u1", none, none⟩], [⟨5, "hi", "Python", "print('hi')", some "u1", 99⟩], 6, 99⟩,
        true⟩ :=
  generate_success_persists " hi " "Python" " print('hi') " (some "u1") userStore
    (by decide) (by decide) (Or.inr ⟨"u1", rfl, by decide, by decide⟩) (by decide)

/-- C9: a generate request with valid prompt and language and
`userId = ""` behaves exactly like one with no `userId` at all: the
empty string is falsy, so the user-existence lookup is skipped, the
request can never fail with NotFound, and a successful generation is
persisted with a null user reference. -/
theorem generate_empty_userid_as_absent
    (p lang : String) (s : Store)
    (hp : jsTrim p ≠ "") (hl : validLanguages.contains lang = true) :
    (∀ up : UpstreamResult,
        generateCode ⟨.str p, .str lang, .str ""⟩ up s =
          generateCode ⟨.str p, .str lang, .undef⟩ up s) ∧
      (∀ (up : UpstreamResult) (m : String),
        (generateCode ⟨.str p, .str lang, .str ""⟩ up s).resp ≠ .notFound m) ∧
      (∀ t : String, jsTrim t ≠ "" →
        generateCode ⟨.str p, .str lang, .str ""⟩ (.success (some t)) s =
          ⟨.ok ⟨s.nextId, jsTrim p, lang, jsTrim t, none, s.now⟩,
            { s with
                generations := s.generations ++ [⟨s.nextId, jsTrim p, lang, jsTrim t, none, s.now⟩],
                nextId := s.nextId + 1 },
            true⟩) := by
  have hpb := promptBad_str p hp
  obtain ⟨hlm, hlv⟩ := langGuards_str lang hl
  have key : ∀ up : UpstreamResult,
      generateCode ⟨.str p, .str lang, .str ""⟩ up s =
        generateCode ⟨.str p, .str lang, .undef⟩ up s := by
    intro up
    cases up <;>
      simp [generateCode, hpb, hlm, hlv, userIdBadType, userNotFound,
        JsVal.truthy, JsVal.isStr, JsVal.asStr, handleUpstream]
  refine ⟨key, ?_, ?_⟩
  · intro up m
    rw [key up]
    have hred : generateCode ⟨.str p, .str lang, .undef⟩ up s =
        handleUpstream (jsTrim p) lang .undef up s := by
      simp [generateCode, hpb, hlm, hlv, userIdBadType, userNotFound,
        JsVal.truthy, JsVal.asStr]
    rw [hred]
    exact handleUpstream_resp_ne_notFound _ _ _ _ _ m
  · intro t ht
    simp [generateCode, hpb, hlm, hlv, userIdBadType, userNotFound,
      JsVal.truthy, JsVal.isStr, JsVal.asStr, handleUpstream, ht]

theorem digit_not_ws (d : Char) (hd : d.isDigit = true) : jsWhitespace d = false := by
  simp only [jsWhitespace, Bool.or_eq_false_iff, beq_eq_false_iff_ne, ne_eq]
  refine ⟨⟨⟨⟨⟨?_, ?_⟩, ?_⟩, ?_⟩, ?_⟩, ?_⟩ <;>
    intro h <;> subst h <;> exact absurd hd (by decide)

theorem takeWhile_digits (ds : List Char) (c : Char) (cs : List Char)
    (hds : ∀ x ∈ ds, x.isDigit = true) (hc : c.isDigit = false) :
    (ds ++ c :: cs).takeWhile Char.isDigit = ds := by
  induction ds with
  | nil => simp [List.takeWhile_cons, hc]
  | cons e t ih =>
    have he : e.isDigit = true := hds e (List.mem_cons_self e t)
    simp only [List.cons_append, List.takeWhile_cons, he, if_true]
    rw [ih (fun x hx => hds x (List.mem_cons_of_mem e hx))]

theorem parseDecimal_digit_run (d : Char) (ds : List Char) (c : Char) (cs : List Char)
    (hd : d.isDigit = true) (hds : ∀ x ∈ ds, x.isDigit = true) (hc : c.isDigit = false) :
    parseDecimal (d :: ds ++ c :: cs) = some (digitsVal (d :: ds)) := by
  have hall : ∀ x ∈ d :: ds, x.isDigit = true := by
    intro x hx
    rcases List.mem_cons.mp hx with rfl | hx
    · exact hd
    · exact hds x hx
  have ht : ((d :: ds) ++ c :: cs).takeWhile Char.isDigit = d :: ds :=
    takeWhile_digits (d :: ds) c cs hall hc
  unfold parseDecimal
  rw [show d :: ds ++ c :: cs = (d :: ds) ++ c :: cs from rfl, ht]

theorem jsParseInt_digit_run (d : Char) (ds cs : List Char) (c : Char)
    (hd : d.isDigit = true) (hds : ∀ x ∈ ds, x.isDigit = true) (hc : c.isDigit = false)
    (hnz : digitsVal (d :: ds) ≠ 0) :
    jsParseInt ⟨d :: (ds ++ c :: cs)⟩ = some ((digitsVal (d :: ds) : Nat) : Int) := by
  have hdm : d ≠ '-' := by intro h; subst h; exact absurd hd (by decide)
  have hdp : d ≠ '+' := by intro h; subst h; exact absurd hd (by decide)
  have hws : jsWhitespace d = false := digit_not_ws d hd
  simp only [jsParseInt, List.dropWhile_cons, hws, Bool.false_eq_true, if_false,
    if_neg hdm, if_neg hdp]
  cases ds with
  | nil =>
    have hcond : ¬(d = '0' ∧ (c = 'x' ∨ c = 'X')) := by
      rintro ⟨rfl, _⟩
      exact hnz rfl
    simp only [List.nil_append, parseIntMag, if_neg hcond]
    rw [show (d :: c :: cs : List Char) = (d :: ([] : List Char)) ++ c :: cs from rfl,
      parseDecimal_digit_run d [] c cs hd (by intro x hx; cases hx) hc]
    rfl
  | cons e t =>
    have he : e.isDigit = true := hds e (List.mem_cons_self e t)
    have hcond : ¬(d = '0' ∧ (e = 'x' ∨ e = 'X')) := by
      rintro ⟨-, he2 | he2⟩ <;> (subst he2; exact absurd he (by decide))
    simp only [List.cons_append, parseIntMag, if_neg hcond]
    rw [show d :: e :: (t ++ c :: cs) = d :: (e :: t) ++ c :: cs from rfl,
      parseDecimal_digit_run d (e :: t) c cs hd hds hc]
    rfl

theorem toNat_mul_of_nonneg (a b : Int) (ha : 0 ≤ a) (hb : 0 ≤ b) :
    (a * b).toNat = a.toNat * b.toNat := by
  rcases Int.eq_ofNat_of_zero_le ha with ⟨m, rfl⟩
  rcases Int.eq_ofNat_of_zero_le hb with ⟨n, rfl⟩
  rw [← Int.natCast_mul, Int.toNat_natCast, Int.toNat_natCast, Int.toNat_natCast]

/-- C7: a validated history request returns the window that skips
exactly `(page - 1) * limit` of the matching rows sorted newest-first
and takes at most `limit` of them, with pagination metadata `totalPages
= ceil(total / limit)`, `hasNext = page < totalPages`, `hasPrev = page
> 1`; the returned rows are ordered by creation timestamp descending,
number at most `limit`, and a page beyond `totalPages` yields an empty
list rather than an error. -/
theorem history_pagination_correct
    (page limit : Int) (lang : Option String) (s : Store)
    (hp : 1 ≤ page) (hl1 : 1 ≤ limit) (hl2 : limit ≤ 100) :
    historyGo page limit lang s =
        .ok ⟨(((sortedDesc (matchingGens s lang)).drop ((page - 1) * limit).toNat).take
            limit.toNat).map (joinUser s),
          ⟨page, limit, (matchingGens s lang).length,
            ceilDiv (matchingGens s lang).length limit.toNat,
            decide (page < (ceilDiv (matchingGens s lang).length limit.toNat : Int)),
            decide (1 < page)⟩⟩ ∧
      ((((sortedDesc (matchingGens s lang)).drop ((page - 1) * limit).toNat).take
          limit.toNat).map (joinUser s)).length ≤ limit.toNat ∧
      List.Pairwise (fun a b : HistoryItem => b.gen.createdAt ≤ a.gen.createdAt)
        ((((sortedDesc (matchingGens s lang)).drop ((page - 1) * limit).toNat).take
            limit.toNat).map (joinUser s)) ∧
      ((ceilDiv (matchingGens s lang).length limit.toNat : Int) < page →
        (((sortedDesc (matchingGens s lang)).drop ((page - 1) * limit).toNat).take
            limit.toNat).map (joinUser s) = []) := by
  refine ⟨?_, ?_, ?_, ?_⟩
  · unfold historyGo
    rw [if_neg (by omega : ¬ page < 1), if_neg (by omega : ¬ (limit < 1 ∨ limit > 100))]
  · rw [List.length_map]
    exact List.length_take_le _ _
  · have hs : List.Pairwise genDesc (sortedDesc (matchingGens s lang)) :=
      List.sorted_insertionSort genDesc (matchingGens s lang)
    have hsub : List.Sublist
        (((sortedDesc (matchingGens s lang)).drop ((page - 1) * limit).toNat).take limit.toNat)
        (sortedDesc (matchingGens s lang)) :=
      (List.take_sublist _ _).trans (List.drop_sublist _ _)
    exact List.pairwise_map.mpr (hs.sublist hsub)
  · intro hbeyond
    have hLpos : 0 < limit.toNat := by omega
    have hskip : ((page - 1) * limit).toNat = (page.toNat - 1) * limit.toNat := by
      rw [toNat_mul_of_nonneg _ _ (by omega) (by omega)]
      congr 1
      omega
    have hcd : ceilDiv (matchingGens s lang).length limit.toNat < page.toNat := by
      omega
    have hT : (matchingGens s lang).length ≤ ((page - 1) * limit).toNat := by
      rw [hskip]
      unfold ceilDiv at hcd
      rw [Nat.div_lt_iff_lt_mul hLpos] at hcd
      have := Nat.sub_one_mul page.toNat limit.toNat
      omega
    have hdrop :
        (sortedDesc (matchingGens s lang)).drop ((page - 1) * limit).toNat = [] := by
      apply List.drop_eq_nil_of_le
      rw [sortedDesc, List.length_insertionSort]
      exact hT
    rw [hdrop]
    simp

/-- Witness for C7: page 2 of limit 2 over three records returns the
single oldest record with `totalPages = 2`, `hasNext = false`,
`hasPrev = true`. -/
theorem history_pagination_witness :
    historyGo 2 2 none histStore =
      .ok ⟨[⟨⟨0, "p0", "Python", "c0", none, 10⟩, none⟩], ⟨2, 2, 3, 2, false, true⟩⟩ :=
  (history_pagination_correct 2 2 none histStore (by decide) (by decide) (by decide)).1

/-- C10 counterexample: for `page = "0abc"` the digit prefix parses to
`0`, but instead of the range check applying to that value (which the
claim predicts, and which would yield InvalidInput since 0 < 1), the
falsy `0` is replaced by the default and the request succeeds with
`page = 1`. -/
theorem history_zero_digit_run_defaults :
    jsParseInt "0abc" = some 0 ∧
      getHistory ⟨some "0abc", none, none⟩ emptyStore =
        .ok ⟨[], ⟨1, 10, 0, 0, false, false⟩⟩ := by
  constructor <;> decide

/-- C10 amended: a `page` or `limit` query value that begins with a
run of decimal digits of nonzero numeric value followed by a non-digit
character parses to that prefix value, which is used as the
parameter's value — no default substitution, no rejection at the parse
step — and the subsequent range checks apply to it; a digit prefix of
value `0`, however, is falsy and is replaced by the default (and a
`0x`/`0X` prefix switches `parseInt` to hexadecimal). -/
theorem history_digit_run_used
    (d : Char) (ds cs : List Char) (c : Char) (lim lang : Option String) (s : Store)
    (hd : d.isDigit = true) (hds : ∀ x ∈ ds, x.isDigit = true) (hc : c.isDigit = false)
    (hnz : digitsVal (d :: ds) ≠ 0) :
    resolveParam (some ⟨d :: (ds ++ c :: cs)⟩) 1 = (digitsVal (d :: ds) : Int) ∧
      resolveParam (some ⟨d :: (ds ++ c :: cs)⟩) 10 = (digitsVal (d :: ds) : Int) ∧
      getHistory ⟨some ⟨d :: (ds ++ c :: cs)⟩, lim, lang⟩ s =
        historyGo (digitsVal (d :: ds) : Int) (resolveParam lim 10) lang s := by
  have hparse := jsParseInt_digit_run d ds cs c hd hds hc hnz
  have hnzi : ((digitsVal (d :: ds) : Nat) : Int) ≠ 0 := by exact_mod_cast hnz
  have h1 : ∀ dflt : Int,
      resolveParam (some ⟨d :: (ds ++ c :: cs)⟩) dflt = (digitsVal (d :: ds) : Int) := by
    intro dflt
    simp [resolveParam, hparse, jsOrDefault, hnzi]
  exact ⟨h1 1, h1 10, by simp only [getHistory, h1]⟩

/-- Witness for the C10 amended theorem at `page = "3abc"`: the value
3 is used. -/
theorem history_digit_run_used_witness :
    resolveParam (some "3abc") 1 = 3 ∧ resolveParam (some "3abc") 10 = 3 ∧
      getHistory ⟨some "3abc", none, none⟩ emptyStore = historyGo 3 10 none emptyStore :=
  history_digit_run_used '3' [] ['b', 'c'] 'a' none none emptyStore
    (by decide) (by decide) (by decide) (by decide)

/-- Witness for C9: with `userId = ""` the persisted record carries a
null user reference. -/
theorem generate_empty_userid_witness :
    generateCode ⟨.str "hi", .str "Python", .str ""⟩ (.success (some "x")) emptyStore =
      ⟨.ok ⟨0, "hi", "Python", "x", none, 0⟩,
        ⟨[], [⟨0, "hi", "Python", "x", none, 0⟩], 1, 0⟩, true⟩ :=
  (generate_empty_userid_as_absent "hi" "Python" emptyStore (by decide) (by decide)).2.2
    "x" (by decide)

end DevPilot
